import Mathlib

/-!
Shallow embedding of the Surprise-Granite remodeling-quote repository.

Strings throughout the embedding are modelled as lists of Unicode code
points (`List Nat`); only the ASCII case mapping is modelled for
lower-casing, which is exact for the ASCII inputs the programs treat
specially (regex character classes, file extensions, catalog keys).
Numbers are modelled as rationals; machine floating point is not needed
for the magnitudes and exactness questions the properties are about.
-/

namespace SurpriseGranite

/-- Strings as lists of Unicode code points. -/
abbrev Str := List Nat

/-- Converts a Lean string literal to its list of code points, used to
transcribe string literals appearing in the source. -/
def strOf (s : String) : Str := s.data.map Char.toNat

/-- ASCII lower-casing of a single code point: `A`..`Z` (65..90) map to
`a`..`z` (97..122); every other code point is unchanged. -/
def lowerCp (b : Nat) : Nat := if 65 ≤ b ∧ b ≤ 90 then b + 32 else b

/-- Lower-casing of a whole string, code point by code point (models
Python `str.lower` and JavaScript `toLowerCase` on ASCII data). -/
def strLower (s : Str) : Str := s.map lowerCp

/-- Membership in the regex character class `[a-zA-Z0-9\-]` used by the
`sanitize_filename` functions of the three data-loading scripts. -/
def allowedCp (b : Nat) : Bool :=
  (decide (97 ≤ b) && decide (b ≤ 122)) ||
  (decide (65 ≤ b) && decide (b ≤ 90)) ||
  (decide (48 ≤ b) && decide (b ≤ 57)) ||
  (b == 45)

/-- Models `os.path.splitext(s)[1]`: the extension starting at the last
dot of the final path component, where leading dots of the component do
not start an extension; empty when there is no such dot. -/
def splitextExt (s : Str) : Str :=
  let base := (s.reverse.takeWhile (fun b => b ≠ 47)).reverse
  let core := base.dropWhile (fun b => b = 46)
  if core.contains 46 then
    46 :: (core.reverse.takeWhile (fun b => b ≠ 46)).reverse
  else []

namespace DownloadImages

/-- Embeds `sanitize_filename` from `src/download_images.py`:
`re.sub(r'[^a-zA-Z0-9\-]', '_', name.lower())` — lower-case the name,
then replace every character outside the class with `_` (95). -/
def sanitize_filename (name : Str) : Str :=
  (strLower name).map (fun b => if allowedCp b then b else 95)

end DownloadImages

namespace InsertIntoMongodb

/-- Embeds `sanitize_filename` from `src/insert_into_mongodb.py`; the
source text of the function is identical to the copy in
`src/download_images.py`. -/
def sanitize_filename (name : Str) : Str :=
  (strLower name).map (fun b => if allowedCp b then b else 95)

/-- Embeds `get_file_extension` from `src/insert_into_mongodb.py`:
`os.path.splitext(url)[1].lower()`. -/
def get_file_extension (url : Str) : Str := strLower (splitextExt url)

/-- Constant `OUTPUT_DIR = "countertop_images"`. -/
def OUTPUT_DIR : Str := strOf "countertop_images"

/-- One MongoDB document as built by `insert_into_mongodb` for a CSV row. -/
structure Document where
  product_name : Str
  material : Str
  brand : Str
  veining : Str
  primary_color : Str
  secondary_color : Str
  scene_image_path : Option Str
  closeup_image_path : Option Str
deriving DecidableEq, Repr

/-- Builds the document inserted for one CSV row (fields `row[2]`..`row[7]`,
plus the image paths, which are `None` when the file does not exist).
The filesystem is modelled by the predicate `fs` telling which paths
exist (`os.path.exists`); `os.path.join` is path concatenation with
`/` (47). -/
def buildDocument (fs : Str → Bool) (row : List Str) : Document :=
  let product_name := sanitize_filename (row.getD 2 [])
  let scene_ext := get_file_extension (row.getD 0 [])
  let closeup_ext := get_file_extension (row.getD 1 [])
  let scene_filename := product_name ++ strOf "_scene" ++ scene_ext
  let closeup_filename := product_name ++ strOf "_closeup" ++ closeup_ext
  let scene_path := OUTPUT_DIR ++ 47 :: scene_filename
  let closeup_path := OUTPUT_DIR ++ 47 :: closeup_filename
  { product_name := row.getD 2 []
    material := row.getD 3 []
    brand := row.getD 4 []
    veining := row.getD 5 []
    primary_color := row.getD 6 []
    secondary_color := row.getD 7 []
    scene_image_path := if fs scene_path then some scene_path else none
    closeup_image_path := if fs closeup_path then some closeup_path else none }

/-- Embeds `insert_into_mongodb` from `src/insert_into_mongodb.py` as a
function from the pre-existing collection contents to the final contents:
the collection is dropped (`collection.drop()`), then for each CSV data
row in order, rows with fewer than 8 fields are skipped and every other
row has its document inserted (`collection.insert_one`). -/
def insert_into_mongodb (fs : Str → Bool) (rows : List (List Str))
    (initColl : List Document) : List Document :=
  let dropped : List Document := []
  rows.foldl
    (fun coll row =>
      if row.length < 8 then coll else coll ++ [buildDocument fs row])
    dropped

end InsertIntoMongodb

namespace CheckMissingImages

/-- Embeds `sanitize_filename` from `src/check_missing_images.py`; the
source text of the function is identical to the other two copies. -/
def sanitize_filename (name : Str) : Str :=
  (strLower name).map (fun b => if allowedCp b then b else 95)

end CheckMissingImages

namespace AppJs

/-- Slab thickness variants `2cm` and `3cm` from the front-end price
list processing. -/
inductive Thickness where
  | cm2
  | cm3
deriving DecidableEq, Repr

/-- Renders a thickness the way the source interpolates it into item ids. -/
def thicknessStr : Thickness → Str
  | .cm2 => strOf "2cm"
  | .cm3 => strOf "3cm"

/-- One raw item of the `/api/countertops` JSON consumed by
`fetchPriceList`; absent JSON fields are `none`. -/
structure RawItem where
  colorName : Option Str
  vendorName : Option Str
  material : Option Str
  costSqFt : Option ℚ
  availableSqFt : Option ℚ
  imageUrl : Option Str
  popularity : Option ℚ
  isNew : Option Bool
deriving DecidableEq, Repr

/-- One processed price-list item held in the front-end state. -/
structure PriceItem where
  id : Str
  colorName : Str
  vendorName : Str
  thickness : Thickness
  material : Str
  installedPricePerSqFt : ℚ
  availableSqFt : ℚ
  imageUrl : Str
  popularity : ℚ
  isNew : Bool
deriving DecidableEq, Repr

/-- JavaScript `a || d` for an optional string: an absent or empty
string is falsy and yields the default. -/
def jsOrStr (o : Option Str) (d : Str) : Str :=
  match o with
  | some s => if s = [] then d else s
  | none => d

/-- Raw string interpolation `${e}` of an optional field: an absent
field renders as the literal text `undefined`. -/
def jsInterp (o : Option Str) : Str :=
  match o with
  | some s => s
  | none => strOf "undefined"

/-- Embeds the per-item arithmetic of `processedData` in `fetchPriceList`
(src/app.py, embedded app.js): for raw item `item` at position `index`
and a thickness, builds the `PriceItem` with
`installedPricePerSqFt = (parseFloat(item.costSqFt || 0) * 3.25 + 35) *
(0.9 for 2cm, 1 for 3cm) * regionMultiplier`. The two `Math.random()`
calls (`popularity` and `isNew` defaults) are modelled by the explicit
random streams `randPop` and `randNew`. -/
def processItem (regionMultiplier : ℚ) (randPop randNew : Nat → Thickness → ℚ)
    (index : Nat) (item : RawItem) (th : Thickness) : PriceItem :=
  { id := jsInterp item.colorName ++ strOf "-" ++ jsInterp item.vendorName
      ++ strOf "-" ++ thicknessStr th ++ strOf "-" ++ strOf (toString index)
    colorName := jsOrStr item.colorName (strOf "Unknown")
    vendorName := jsOrStr item.vendorName (strOf "Unknown")
    thickness := th
    material := jsOrStr item.material (strOf "Unknown")
    installedPricePerSqFt :=
      ((item.costSqFt.getD 0) * (13 / 4) + 35)
        * (if th = .cm2 then 9 / 10 else 1) * regionMultiplier
    availableSqFt := item.availableSqFt.getD 0
    imageUrl := jsOrStr item.imageUrl (strOf "/images/fallback.jpg")
    popularity :=
      match item.popularity with
      | some p => if p = 0 then randPop index th else p
      | none => randPop index th
    isNew :=
      match item.isNew with
      | some true => true
      | _ => decide (randNew index th > 4 / 5) }

/-- The embedded static fallback installed by the catch branch of
`fetchPriceList`: a single mock Granite entry priced at
`50 * regionMultiplier`. -/
def mockItem (regionMultiplier : ℚ) : PriceItem :=
  { id := strOf "mock-granite-2cm-0"
    colorName := strOf "Mock Granite"
    vendorName := strOf "Mock Vendor"
    thickness := .cm2
    material := strOf "Granite"
    installedPricePerSqFt := 50 * regionMultiplier
    availableSqFt := 100
    imageUrl := strOf "/images/fallback.jpg"
    popularity := 4 / 5
    isNew := false }

/-- Embeds `fetchPriceList` from the embedded app.js. A fetch outcome of
`none` covers every failure the catch-all handles: network failure,
timeout (the 5s abort signal), non-2xx status (the `!response.ok`
throw) and malformed JSON. On success the raw data is flat-mapped over
both thicknesses; on failure the price data is set to the single mock
item and the error message is shown. The previous price data
(`prevPriceData`) is the React state being replaced. -/
def fetchPriceList (regionMultiplier : ℚ) (randPop randNew : Nat → Thickness → ℚ)
    (fetchResult : Option (List RawItem)) (prevPriceData : List PriceItem) :
    List PriceItem × Option Str :=
  match fetchResult with
  | some rawData =>
      ((rawData.enum).flatMap
        (fun p => [Thickness.cm2, Thickness.cm3].map
          (processItem regionMultiplier randPop randNew p.1 p.2)), none)
  | none =>
      ([mockItem regionMultiplier],
       some (strOf "Failed to load countertop data. Using mock data."))

/-- Embeds `getWasteFactor` from the embedded app.js:
`sqFt < 25` gives `1.30`, `sqFt <= 50` gives `1.20`, otherwise `1.15`. -/
def getWasteFactor (sqFt : ℚ) : ℚ :=
  if sqFt < 25 then 13 / 10
  else if sqFt ≤ 50 then 6 / 5
  else 23 / 20

/-- One cart entry: a price item plus the entered square footage. -/
structure QuoteItem where
  item : PriceItem
  sqFt : ℚ
deriving DecidableEq, Repr

/-- The cart cost rendered for one item (embedded app.js, cart tab):
`item.sqFt * getWasteFactor(item.sqFt) * item.installedPricePerSqFt`. -/
def cartItemCost (q : QuoteItem) : ℚ :=
  q.sqFt * getWasteFactor q.sqFt * q.item.installedPricePerSqFt

/-- Toast text shown by `updateSqFt` for a rejected value. -/
def invalidSqFtToast : Str := strOf "Please enter a valid square footage"

/-- Setting the `sqFt` of the cart entry at an index, as the source
mutation `newQuote[index].sqFt = parsedValue` does. -/
def setSqFtAt : List QuoteItem → Nat → ℚ → List QuoteItem
  | [], _, _ => []
  | q :: rest, 0, v => { q with sqFt := v } :: rest
  | q :: rest, Nat.succ n, v => q :: setSqFtAt rest n v

/-- Embeds `updateSqFt` from the embedded app.js. The parsed input is
`none` for NaN (`parseFloat` failure). A NaN or non-positive value
shows the error toast and leaves the quote unchanged; otherwise the
entry at `index` is updated and no error is shown. -/
def updateSqFt (quote : List QuoteItem) (index : Nat) (value : Option ℚ) :
    List QuoteItem × Option Str :=
  match value with
  | none => (quote, some invalidSqFtToast)
  | some v =>
      if v ≤ 0 then (quote, some invalidSqFtToast)
      else (setSqFtAt quote index v, none)

end AppJs

namespace FlaskApp

/-- Constant `ALLOWED_EXTENSIONS` from src/app.py: the set of allowed
file extensions (without the dot). -/
def ALLOWED_EXTENSIONS : List Str := [strOf "png", strOf "jpg", strOf "jpeg"]

/-- The part of a filename after its last dot (46), matching
Python `filename.rsplit(".", 1)[1]` when a dot is present. -/
def extAfterLastDot (s : Str) : Str :=
  (s.reverse.takeWhile (fun b => b ≠ 46)).reverse

/-- Embeds `allowed_file` from src/app.py:
a dot must occur in the filename and the lower-cased text after the
last dot must be one of the allowed extensions. -/
def allowed_file (filename : Str) : Bool :=
  filename.contains 46 &&
    ALLOWED_EXTENSIONS.contains (strLower (extAfterLastDot filename))

/-- One countertop document as inserted into MongoDB by `upload_image`. -/
structure Countertop where
  colorName : Str
  vendorName : Str
  material : Str
  thickness : Str
  costSqFt : ℚ
  availableSqFt : ℚ
  imageUrl : Str
  popularity : ℚ
  isNew : Bool
deriving DecidableEq, Repr

/-- The document built in `upload_image` for a saved file:
`colorName = filename.split(".")[0]` is the part of the name before the
first dot, the other fields are the literal constants of the source. -/
def countertop_data (filename : Str) : Countertop :=
  { colorName := filename.takeWhile (fun b => b ≠ 46)
    vendorName := strOf "Uploaded"
    material := strOf "Unknown"
    thickness := strOf "Unknown"
    costSqFt := 0
    availableSqFt := 0
    imageUrl := filename
    popularity := 0
    isNew := true }

/-- The multipart request seen by `upload_image`: whether a `file` part
is present, and its client-supplied filename (empty list for an empty
filename). -/
structure UploadRequest where
  hasFile : Bool
  filename : Str
deriving DecidableEq, Repr

/-- The externally visible server state touched by `upload_image`: the
files saved under the upload folder and the MongoDB collection. -/
structure ServerState where
  savedFiles : List Str
  collection : List Countertop
deriving DecidableEq, Repr

/-- An HTTP response: a 200 JSON body, or an error status with message. -/
inductive HttpResponse where
  | ok (body : Str)
  | err (status : Nat) (msg : Str)
deriving DecidableEq, Repr

/-- A Python runtime error raised while the handler body runs. -/
inductive PyError where
  | nameError
deriving DecidableEq, Repr

/-- Evaluation of the success-response expression of `upload_image`
(src/app.py lines 146-156). Building the analysis dictionary evaluates
the bare identifier `false` (line 151, `"isNaturalStone": false`),
which is an undefined name in Python (the boolean literal is `False`),
so the expression raises `NameError` instead of producing a response. -/
def buildSuccessResponse (filename : Str) : Except PyError HttpResponse :=
  Except.error PyError.nameError

/-- Embeds the `upload_image` handler from src/app.py. The early
validation branches return 400 responses without touching state. On a
valid upload the file is saved and the document inserted, then the
success response is built; since that raises `NameError` (see
`buildSuccessResponse`), the surrounding `except` returns the 500
error while the saved file and inserted document remain in place.
`secure_filename` (werkzeug, an external collaborator) is passed in as
a parameter. -/
def upload_image (secure_filename : Str → Str) (req : UploadRequest)
    (st : ServerState) : ServerState × HttpResponse :=
  if ¬ req.hasFile then
    (st, .err 400 (strOf "No file uploaded"))
  else if req.filename = [] then
    (st, .err 400 (strOf "No file selected"))
  else if ¬ allowed_file req.filename then
    (st, .err 400 (strOf "Invalid file type. Use PNG or JPG"))
  else
    let fn := secure_filename req.filename
    let st' : ServerState :=
      { savedFiles := st.savedFiles ++ [fn]
        collection := st.collection ++ [countertop_data fn] }
    match buildSuccessResponse fn with
    | .ok resp => (st', resp)
    | .error _ => (st', .err 500 (strOf "Failed to upload image"))

end FlaskApp

namespace Estimator

/-- Code points Python `str.strip` and JavaScript `trim` treat as
whitespace (the ASCII ones: tab, linefeed, vertical tab, formfeed,
carriage return, space). -/
def isSpaceCp (b : Nat) : Bool :=
  (b == 32) || (b == 9) || (b == 10) || (b == 11) || (b == 12) || (b == 13)

/-- Right trim: removes trailing whitespace code points. -/
def rtrimStr : Str → Str
  | [] => []
  | b :: t =>
      if (rtrimStr t).isEmpty && isSpaceCp b then [] else b :: rtrimStr t

/-- Trims whitespace from both ends of a string. -/
def trimStr (s : Str) : Str := rtrimStr (s.dropWhile isSpaceCp)

/-- Modelled from the spec: key normalization of the pricing catalog
(section 3, `PricingEntry.key`, and section 4.1, `lookup` is
case-insensitive and trims whitespace): lower-case, then trim. The
catalog component itself is not among the source files under src. -/
def normalizeKey (s : Str) : Str := trimStr (strLower s)

/-- Modelled from the spec: one row of the pricing catalog (section 3):
a normalized key, a non-negative unit cost, and the positive unit-area
capacity of one slab. -/
structure PricingEntry where
  key : Str
  costPerArea : ℚ
  unitsPerSlab : ℚ
deriving DecidableEq, Repr

/-- A catalog snapshot: the set of entries, replaced atomically on
refresh (section 3). -/
abbrev CatalogSnapshot := List PricingEntry

/-- Modelled from the spec: the designated default entry returned for
an unmatched key (sections 4.1 and 8): the documented default unit
cost is 50.0; the spec leaves the default slab area as a documented
constant without fixing its value, and 100 is taken as that constant
(matching the fallback `availableSqFt` of the embedded front end). -/
def defaultEntry : PricingEntry :=
  { key := [], costPerArea := 50, unitsPerSlab := 100 }

/-- Modelled from the spec: `lookup` (section 4.1). The key is
normalized (case-insensitive, whitespace-trimmed) and matched against
the snapshot; an unmatched key yields the designated default entry.
The boolean is the `matched` flag distinguishing a catalog hit from a
defaulted entry. `lookup` is total: it never raises. -/
def lookup (cat : CatalogSnapshot) (key : Str) : PricingEntry × Bool :=
  match cat.find? (fun e => e.key == normalizeKey key) with
  | some e => (e, true)
  | none => (defaultEntry, false)

/-- Edge detail tiers (spec section 3). -/
inductive EdgeDetailTier where
  | standard
  | premium
  | custom
deriving DecidableEq, Repr

/-- Fixture kinds (spec section 3). -/
inductive FixtureKind where
  | sink
  | cooktop
deriving DecidableEq, Repr

/-- Fixture tiers (spec section 3). -/
inductive FixtureTier where
  | standard
  | premium
deriving DecidableEq, Repr

/-- One requested fixture (spec section 3). -/
structure Fixture where
  kind : FixtureKind
  tier : FixtureTier
  quantity : ℚ
deriving DecidableEq, Repr

/-- Job types (spec sections 3 and 4.2): the labor markup distinguishes
slab-only jobs from all other job types; `install` appears in the
spec scenarios as a non-slab job type. -/
inductive JobType where
  | slab
  | install
  | remodel
deriving DecidableEq, Repr

/-- Modelled from the spec: the input of `CostEstimator.compute`
(section 3). An absent backsplash override rate is modelled as 0,
matching the `overrideRate > 0` test of step 6 of the algorithm. -/
structure EstimateRequest where
  areaUnits : ℚ
  materialKey : Str
  demolitionRequired : Bool
  edgeDetailTier : EdgeDetailTier
  fixtures : List Fixture
  backsplashRequested : Bool
  backsplashOverrideRate : ℚ
  jobType : JobType
deriving DecidableEq, Repr

/-- Modelled from the spec: the output of `CostEstimator.compute`
(section 3). -/
structure EstimateResult where
  materialCost : ℚ
  fixtureCost : ℚ
  backsplashCost : ℚ
  laborCost : ℚ
  slabCount : ℤ
  totalCost : ℚ
deriving DecidableEq, Repr

/-- The error taxonomy entry surfaced to callers for bad input
(spec section 7). -/
inductive EstimateError where
  | invalidRequest
deriving DecidableEq, Repr

/-- Edge multipliers (spec section 4.2, step 4). -/
def edgeMultiplier : EdgeDetailTier → ℚ
  | .standard => 1
  | .premium => 21 / 20
  | .custom => 11 / 10

/-- Per-unit fixture rates (spec section 4.2, step 5). -/
def fixtureRate : FixtureKind → FixtureTier → ℚ
  | .sink, .standard => 100
  | .sink, .premium => 150
  | .cooktop, .standard => 120
  | .cooktop, .premium => 160

/-- Labor markup by job type (spec section 4.2, step 9): slab-only jobs
1.35, all other job types 1.30. -/
def jobTypeMarkup : JobType → ℚ
  | .slab => 27 / 20
  | _ => 13 / 10

/-- Validation of a request (spec sections 4.2, error conditions, and
3, invariants): the area must be positive, and no quantity or cost in
the input may be negative. -/
def validRequest (req : EstimateRequest) : Bool :=
  decide (0 < req.areaUnits) &&
    req.fixtures.all (fun f => decide (0 ≤ f.quantity)) &&
    decide (0 ≤ req.backsplashOverrideRate)

/-- Modelled from the spec: `CostEstimator.compute` (section 4.2),
following the ten algorithm steps literally, over exact rationals; the
`/api/estimate` flat 20 percent waste allowance of step 7 is used, and
the demolition surcharge is applied before the edge multiplier as in
the step order of the spec. Bad input fails with `invalidRequest`;
everything else is total. -/
def compute (req : EstimateRequest) (cat : CatalogSnapshot) :
    Except EstimateError EstimateResult :=
  if ¬ validRequest req then .error .invalidRequest
  else
    let entry := (lookup cat req.materialKey).1
    let materialBase := req.areaUnits * entry.costPerArea
    let afterDemo :=
      if req.demolitionRequired then materialBase * (11 / 10) else materialBase
    let materialCost := afterDemo * edgeMultiplier req.edgeDetailTier
    let fixtureCost :=
      (req.fixtures.map (fun f => f.quantity * fixtureRate f.kind f.tier)).sum
    let backsplashCost :=
      if req.backsplashRequested then
        req.areaUnits *
          (if 0 < req.backsplashOverrideRate then req.backsplashOverrideRate
           else 20)
      else 0
    let effectiveArea := req.areaUnits * (6 / 5)
    let slabCount := ⌈effectiveArea / entry.unitsPerSlab⌉
    let laborCost := req.areaUnits * 45 * jobTypeMarkup req.jobType
    .ok
      { materialCost := materialCost
        fixtureCost := fixtureCost
        backsplashCost := backsplashCost
        laborCost := laborCost
        slabCount := slabCount
        totalCost := materialCost + fixtureCost + backsplashCost + laborCost }

/-- Catalog well-formedness (spec section 3): every entry has a
non-negative unit cost and a positive slab capacity. -/
def CatalogWF (cat : CatalogSnapshot) : Prop :=
  ∀ e ∈ cat, 0 ≤ e.costPerArea ∧ 0 < e.unitsPerSlab

/-- The catalog of the spec scenario (section 8): calacatta quartz with
unit cost 45 and slab area 55. -/
def scenarioCatalog : CatalogSnapshot :=
  [{ key := strOf "calacatta quartz", costPerArea := 45, unitsPerSlab := 55 }]

/-- The request of the spec scenario (section 8): 30 area units of
calacatta quartz, no demolition, standard edge, no fixtures, no
backsplash, install job. -/
def scenarioRequest : EstimateRequest :=
  { areaUnits := 30
    materialKey := strOf "calacatta quartz"
    demolitionRequired := false
    edgeDetailTier := .standard
    fixtures := []
    backsplashRequested := false
    backsplashOverrideRate := 0
    jobType := .install }

/-- The expected result of the spec scenario (section 8). -/
def scenarioResult : EstimateResult :=
  { materialCost := 1350
    fixtureCost := 0
    backsplashCost := 0
    laborCost := 1755
    slabCount := 1
    totalCost := 3105 }

end Estimator

/-- A non-empty previous price-list state (a last-known-good snapshot
of two entries), used to exercise the failure branch of
`fetchPriceList`. -/
def examplePrevSnapshot : List AppJs.PriceItem :=
  [AppJs.mockItem 1, AppJs.mockItem 2]

/-! ## Theorems -/

theorem lowerCp_lowerCp (b : Nat) : lowerCp (lowerCp b) = lowerCp b := by
  unfold lowerCp
  split_ifs <;> omega

theorem lowerCp_not_upper (b : Nat) : ¬ (65 ≤ lowerCp b ∧ lowerCp b ≤ 90) := by
  unfold lowerCp
  split_ifs <;> omega

theorem sanitize_mem_charset {s : Str} {b : Nat}
    (hb : b ∈ DownloadImages.sanitize_filename s) :
    (97 ≤ b ∧ b ≤ 122) ∨ (48 ≤ b ∧ b ≤ 57) ∨ b = 45 ∨ b = 95 := by
  unfold DownloadImages.sanitize_filename at hb
  obtain ⟨c, hc, rfl⟩ := List.mem_map.mp hb
  obtain ⟨a, ha, rfl⟩ := List.mem_map.mp hc
  by_cases hA : allowedCp (lowerCp a)
  · rw [if_pos hA]
    have h2 := lowerCp_not_upper a
    simp only [allowedCp, Bool.or_eq_true, Bool.and_eq_true, decide_eq_true_eq,
      beq_iff_eq] at hA
    omega
  · rw [if_neg hA]
    omega

theorem sanitize_charset_fixed {b : Nat}
    (h : (97 ≤ b ∧ b ≤ 122) ∨ (48 ≤ b ∧ b ≤ 57) ∨ b = 45 ∨ b = 95) :
    lowerCp b = b ∧ (if allowedCp b then b else 95) = b := by
  constructor
  · unfold lowerCp
    rw [if_neg]
    omega
  · by_cases hA : allowedCp b
    · rw [if_pos hA]
    · rw [if_neg hA]
      simp only [allowedCp, Bool.or_eq_true, Bool.and_eq_true, decide_eq_true_eq,
        beq_iff_eq, not_or, not_and] at hA
      omega

theorem sanitize_filename_idem (s : Str) :
    DownloadImages.sanitize_filename (DownloadImages.sanitize_filename s) =
      DownloadImages.sanitize_filename s := by
  conv_lhs => rw [DownloadImages.sanitize_filename]
  have h1 : strLower (DownloadImages.sanitize_filename s) =
      DownloadImages.sanitize_filename s := by
    unfold strLower
    calc (DownloadImages.sanitize_filename s).map lowerCp
        = (DownloadImages.sanitize_filename s).map id :=
          List.map_congr_left fun b hb =>
            (sanitize_charset_fixed (sanitize_mem_charset hb)).1
      _ = DownloadImages.sanitize_filename s := List.map_id _
  rw [h1]
  calc (DownloadImages.sanitize_filename s).map (fun b => if allowedCp b then b else 95)
      = (DownloadImages.sanitize_filename s).map id :=
        List.map_congr_left fun b hb =>
          (sanitize_charset_fixed (sanitize_mem_charset hb)).2
    _ = DownloadImages.sanitize_filename s := List.map_id _

/-- C10: for every input string, `sanitize_filename` returns only
lower-case ASCII letters, digits, hyphens and underscores; it is
idempotent; and the three copies in the three scripts define the same
function. -/
theorem claim_C10_sanitize_filename :
    (∀ (s : Str), ∀ b ∈ DownloadImages.sanitize_filename s,
        (97 ≤ b ∧ b ≤ 122) ∨ (48 ≤ b ∧ b ≤ 57) ∨ b = 45 ∨ b = 95) ∧
    (∀ s : Str, DownloadImages.sanitize_filename (DownloadImages.sanitize_filename s) =
        DownloadImages.sanitize_filename s) ∧
    DownloadImages.sanitize_filename = InsertIntoMongodb.sanitize_filename ∧
    InsertIntoMongodb.sanitize_filename = CheckMissingImages.sanitize_filename :=
  ⟨fun _ _ hb => sanitize_mem_charset hb, sanitize_filename_idem, rfl, rfl⟩

/-- Witness for C10 at the concrete input "Calacatta Gold!". -/
theorem claim_C10_witness :
    ((97 ≤ 95 ∧ 95 ≤ 122) ∨ (48 ≤ 95 ∧ 95 ≤ 57) ∨ 95 = 45 ∨ (95 : Nat) = 95) ∧
    DownloadImages.sanitize_filename
        (DownloadImages.sanitize_filename (strOf "Calacatta Gold!")) =
      DownloadImages.sanitize_filename (strOf "Calacatta Gold!") :=
  ⟨claim_C10_sanitize_filename.1 (strOf "Calacatta Gold!") 95 (by decide),
   claim_C10_sanitize_filename.2.1 (strOf "Calacatta Gold!")⟩

theorem insert_foldl_eq (fs : Str → Bool) :
    ∀ (rows : List (List Str)) (acc : List InsertIntoMongodb.Document),
      rows.foldl
          (fun coll row =>
            if row.length < 8 then coll
            else coll ++ [InsertIntoMongodb.buildDocument fs row]) acc
        = acc ++ (rows.filter (fun row => 8 ≤ row.length)).map
            (InsertIntoMongodb.buildDocument fs) := by
  intro rows
  induction rows with
  | nil => intro acc; simp
  | cons r rs ih =>
      intro acc
      by_cases h : r.length < 8
      · have h8 : ¬ (8 ≤ r.length) := by omega
        simp [List.foldl_cons, List.filter_cons, h, h8, ih]
      · have h8 : 8 ≤ r.length := by omega
        simp [List.foldl_cons, List.filter_cons, h, h8, ih]

/-- C9: `insert_into_mongodb` drops the whole collection first, so for
every pre-existing collection contents the final collection is exactly
one document per CSV data row with at least 8 fields, in CSV order;
shorter rows are skipped and every pre-existing document is discarded
(the result does not depend on `initColl`). -/
theorem claim_C9_insert_into_mongodb (fs : Str → Bool) (rows : List (List Str))
    (initColl : List InsertIntoMongodb.Document) :
    InsertIntoMongodb.insert_into_mongodb fs rows initColl =
      (rows.filter (fun row => 8 ≤ row.length)).map
        (InsertIntoMongodb.buildDocument fs) := by
  unfold InsertIntoMongodb.insert_into_mongodb
  simpa using insert_foldl_eq fs rows []

/-- C3 counterexample: the waste-factor strategy actually in the source
(`getWasteFactor`) contradicts the claimed brackets at concrete areas:
at area 10 the claim demands 50 percent (factor 3/2) but the code gives
13/10; at area 30 the claim demands 35 percent (27/20) but the code
gives 6/5; at area 100 the claim demands 20 percent (6/5) but the code
gives 23/20. -/
theorem claim_C3_counterexample :
    AppJs.getWasteFactor 10 ≠ 3 / 2 ∧ AppJs.getWasteFactor 30 ≠ 27 / 20 ∧
      AppJs.getWasteFactor 100 ≠ 6 / 5 := by
  refine ⟨?_, ?_, ?_⟩ <;> norm_num [AppJs.getWasteFactor]

/-- C3 (amended): the tiered waste-factor strategy in the source is the
cart-cost one, keyed by area brackets with area < 25 giving a 30
percent waste factor (13/10), area up to 50 giving 20 percent (6/5),
and all larger areas 15 percent (23/20). -/
theorem claim_C3_waste_factor_tiers (a : ℚ) :
    (a < 25 → AppJs.getWasteFactor a = 13 / 10) ∧
    (25 ≤ a → a ≤ 50 → AppJs.getWasteFactor a = 6 / 5) ∧
    (50 < a → AppJs.getWasteFactor a = 23 / 20) := by
  refine ⟨fun h => ?_, fun h1 h2 => ?_, fun h => ?_⟩ <;>
    (unfold AppJs.getWasteFactor; split_ifs <;> first | rfl | linarith)

/-- Witness for the amended C3, one area per bracket. -/
theorem claim_C3_witness :
    AppJs.getWasteFactor 10 = 13 / 10 ∧ AppJs.getWasteFactor 30 = 6 / 5 ∧
      AppJs.getWasteFactor 100 = 23 / 20 :=
  ⟨(claim_C3_waste_factor_tiers 10).1 (by norm_num),
   (claim_C3_waste_factor_tiers 30).2.1 (by norm_num) (by norm_num),
   (claim_C3_waste_factor_tiers 100).2.2 (by norm_num)⟩

/-- C4 counterexample: a failed refresh does not resolve to the
last-known-good snapshot when one exists; with a two-entry previous
snapshot the failure branch installs the one-entry mock fallback
instead. -/
theorem claim_C4_counterexample :
    (AppJs.fetchPriceList 1 (fun _ _ => 0) (fun _ _ => 0) none
        examplePrevSnapshot).1 ≠ examplePrevSnapshot := by
  intro h
  have hl := congrArg List.length h
  simp [AppJs.fetchPriceList, examplePrevSnapshot] at hl

/-- C4 (amended): on any network failure, timeout or non-2xx response,
`fetchPriceList` never raises to the caller: it resolves to the
embedded static fallback (the single mock Granite entry priced at 50
times the region multiplier) together with the logged error message,
regardless of any previous snapshot, so subsequent lookups remain
usable. -/
theorem claim_C4_failure_fallback (regionMultiplier : ℚ)
    (randPop randNew : Nat → AppJs.Thickness → ℚ)
    (prev : List AppJs.PriceItem) :
    AppJs.fetchPriceList regionMultiplier randPop randNew none prev =
      ([AppJs.mockItem regionMultiplier],
       some (strOf "Failed to load countertop data. Using mock data.")) := rfl

/-- C2: a non-positive area, a negative fixture quantity, or a negative
override rate anywhere in the input makes the estimate computation fail
with `invalidRequest` and produce no result; likewise the front-end
`updateSqFt` rejects a NaN or non-positive square footage with the
error toast and leaves the cart unchanged. -/
theorem claim_C2_invalid_rejected :
    (∀ (req : Estimator.EstimateRequest) (cat : Estimator.CatalogSnapshot),
        (req.areaUnits ≤ 0 ∨ (∃ f ∈ req.fixtures, f.quantity < 0) ∨
            req.backsplashOverrideRate < 0) →
        Estimator.compute req cat =
          Except.error Estimator.EstimateError.invalidRequest) ∧
    (∀ (quote : List AppJs.QuoteItem) (index : Nat) (v : ℚ), v ≤ 0 →
        AppJs.updateSqFt quote index (some v) =
          (quote, some AppJs.invalidSqFtToast)) ∧
    (∀ (quote : List AppJs.QuoteItem) (index : Nat),
        AppJs.updateSqFt quote index none =
          (quote, some AppJs.invalidSqFtToast)) := by
  refine ⟨fun req cat h => ?_, fun quote index v hv => ?_, fun quote index => rfl⟩
  · have hfalse : ¬ (Estimator.validRequest req = true) := by
      intro hv
      simp only [Estimator.validRequest, Bool.and_eq_true, decide_eq_true_eq,
        List.all_eq_true] at hv
      obtain ⟨⟨h1, h2⟩, h3⟩ := hv
      rcases h with h | ⟨f, hf, hq⟩ | h
      · linarith
      · have := h2 f hf
        simp only [decide_eq_true_eq] at this
        linarith
      · linarith
    unfold Estimator.compute
    rw [if_pos hfalse]
  · simp [AppJs.updateSqFt, hv]

/-- Witness for C2: a zero area is rejected by `compute`, and a
negative square footage is rejected by `updateSqFt`. -/
theorem claim_C2_witness :
    Estimator.compute { Estimator.scenarioRequest with areaUnits := 0 }
        Estimator.scenarioCatalog =
      Except.error Estimator.EstimateError.invalidRequest ∧
    AppJs.updateSqFt [] 0 (some (-1)) = ([], some AppJs.invalidSqFtToast) :=
  ⟨claim_C2_invalid_rejected.1 _ _ (Or.inl (by norm_num)),
   claim_C2_invalid_rejected.2.1 [] 0 (-1) (by norm_num)⟩

/-- C5: `compute` is deterministic: for the same request and the same
catalog snapshot, repeated runs yield the identical result (in the
embedding `compute` is a pure function of exactly these two inputs, so
no other state can influence the output). -/
theorem claim_C5_compute_deterministic (req₁ req₂ : Estimator.EstimateRequest)
    (cat₁ cat₂ : Estimator.CatalogSnapshot)
    (hreq : req₁ = req₂) (hcat : cat₁ = cat₂) :
    Estimator.compute req₁ cat₁ = Estimator.compute req₂ cat₂ := by
  rw [hreq, hcat]

/-- Witness for C5 at the spec scenario inputs. -/
theorem claim_C5_witness :
    Estimator.compute Estimator.scenarioRequest Estimator.scenarioCatalog =
      Estimator.compute Estimator.scenarioRequest Estimator.scenarioCatalog :=
  claim_C5_compute_deterministic _ _ _ _ rfl rfl

namespace Estimator

theorem dropWhile_dropWhile_self {p : Nat → Bool} :
    ∀ l : Str, List.dropWhile p (List.dropWhile p l) = List.dropWhile p l := by
  intro l
  induction l with
  | nil => rfl
  | cons a t ih =>
      rw [List.dropWhile_cons]
      by_cases hp : p a = true
      · rw [if_pos hp, ih]
      · rw [if_neg hp, List.dropWhile_cons, if_neg hp]

theorem dropWhile_head_false {p : Nat → Bool} :
    ∀ {l t : Str} {b : Nat}, List.dropWhile p l = b :: t → p b = false := by
  intro l
  induction l with
  | nil => intro t b h; cases h
  | cons a s ih =>
      intro t b h
      rw [List.dropWhile_cons] at h
      by_cases hp : p a = true
      · rw [if_pos hp] at h
        exact ih h
      · rw [if_neg hp] at h
        cases h
        simpa using hp

theorem rtrimStr_idem : ∀ l : Str, rtrimStr (rtrimStr l) = rtrimStr l := by
  intro l
  induction l with
  | nil => rfl
  | cons b t ih =>
      rw [rtrimStr]
      by_cases hc : ((rtrimStr t).isEmpty && isSpaceCp b) = true
      · rw [if_pos hc]
        rfl
      · rw [if_neg hc, rtrimStr, ih, if_neg hc]

theorem rtrimStr_cons_head : ∀ {l t : Str} {b : Nat},
    rtrimStr l = b :: t → ∃ s : Str, l = b :: s := by
  intro l t b h
  cases l with
  | nil => cases h
  | cons a s =>
      rw [rtrimStr] at h
      by_cases hc : ((rtrimStr s).isEmpty && isSpaceCp a) = true
      · rw [if_pos hc] at h
        cases h
      · rw [if_neg hc] at h
        obtain ⟨rfl, _⟩ := List.cons.injEq .. ▸ h
        exact ⟨s, rfl⟩

theorem mem_rtrimStr : ∀ {l : Str} {b : Nat}, b ∈ rtrimStr l → b ∈ l := by
  intro l
  induction l with
  | nil => intro b h; cases h
  | cons a s ih =>
      intro b h
      rw [rtrimStr] at h
      by_cases hc : ((rtrimStr s).isEmpty && isSpaceCp a) = true
      · rw [if_pos hc] at h
        cases h
      · rw [if_neg hc] at h
        rcases List.mem_cons.mp h with rfl | h
        · exact List.mem_cons_self ..
        · exact List.mem_cons_of_mem _ (ih h)

theorem mem_dropWhile {p : Nat → Bool} :
    ∀ {l : Str} {b : Nat}, b ∈ List.dropWhile p l → b ∈ l := by
  intro l
  induction l with
  | nil => intro b h; cases h
  | cons a s ih =>
      intro b h
      rw [List.dropWhile_cons] at h
      by_cases hp : p a = true
      · rw [if_pos hp] at h
        exact List.mem_cons_of_mem _ (ih h)
      · rwa [if_neg hp] at h

theorem mem_trimStr {l : Str} {b : Nat} (h : b ∈ trimStr l) : b ∈ l :=
  mem_dropWhile (mem_rtrimStr h)

theorem trimStr_idem (l : Str) : trimStr (trimStr l) = trimStr l := by
  have key : List.dropWhile isSpaceCp (rtrimStr (List.dropWhile isSpaceCp l)) =
      rtrimStr (List.dropWhile isSpaceCp l) := by
    cases hm : rtrimStr (List.dropWhile isSpaceCp l) with
    | nil => rfl
    | cons b r =>
        obtain ⟨s, hs⟩ := rtrimStr_cons_head hm
        have hb : isSpaceCp b = false := dropWhile_head_false hs
        rw [List.dropWhile_cons, hb]
        simp
  rw [trimStr, trimStr, key, rtrimStr_idem]

theorem strLower_fixed_of_mem {s : Str} {b : Nat} (hb : b ∈ strLower s) :
    lowerCp b = b := by
  obtain ⟨a, _, rfl⟩ := List.mem_map.mp hb
  exact lowerCp_lowerCp a

theorem strLower_trimStr_strLower (s : Str) :
    strLower (trimStr (strLower s)) = trimStr (strLower s) := by
  calc (trimStr (strLower s)).map lowerCp
      = (trimStr (strLower s)).map id :=
        List.map_congr_left fun b hb => strLower_fixed_of_mem (mem_trimStr hb)
    _ = trimStr (strLower s) := List.map_id _

theorem normalizeKey_idem (s : Str) :
    normalizeKey (normalizeKey s) = normalizeKey s := by
  rw [normalizeKey, normalizeKey, strLower_trimStr_strLower]
  exact trimStr_idem _

/-- C7: for every key with no matching catalog entry, `lookup` never
raises: it returns the designated default entry (default unit cost
50.0, default slab area) with `matched = false`; and `lookup` is
case-insensitive and trims whitespace, in that looking up a key and
looking up its normalized (lower-cased, trimmed) form agree. -/
theorem claim_C7_lookup_default :
    (∀ (cat : CatalogSnapshot) (k : Str),
        (∀ e ∈ cat, e.key ≠ normalizeKey k) →
        lookup cat k = (defaultEntry, false) ∧ defaultEntry.costPerArea = 50) ∧
    (∀ (cat : CatalogSnapshot) (k : Str),
        lookup cat k = lookup cat (normalizeKey k)) := by
  constructor
  · intro cat k hne
    have hf : cat.find? (fun e => e.key == normalizeKey k) = none := by
      rw [List.find?_eq_none]
      intro e he
      simpa using hne e he
    refine ⟨?_, rfl⟩
    unfold lookup
    rw [hf]
  · intro cat k
    unfold lookup
    rw [normalizeKey_idem]

/-- Witness for C7: the key "granite" misses the scenario catalog and
yields the default entry, unmatched. -/
theorem claim_C7_witness :
    lookup scenarioCatalog (strOf "granite") = (defaultEntry, false) ∧
      defaultEntry.costPerArea = 50 :=
  claim_C7_lookup_default.1 scenarioCatalog (strOf "granite") (by decide)

/-- Evaluation of `compute` at the spec scenario (section 8): 30 area
units of calacatta quartz give material cost 1350, labor 1755, one
slab, total 3105. -/
theorem scenario_compute :
    compute scenarioRequest scenarioCatalog = Except.ok scenarioResult := by
  have hv : validRequest scenarioRequest = true := by decide
  have hlk : (lookup scenarioCatalog scenarioRequest.materialKey).1 =
      { key := strOf "calacatta quartz", costPerArea := 45, unitsPerSlab := 55 } := by
    decide
  have hceil : (⌈scenarioRequest.areaUnits * (6 / 5) /
      ({ key := strOf "calacatta quartz", costPerArea := 45, unitsPerSlab := 55 } :
        PricingEntry).unitsPerSlab⌉ : ℤ) = 1 := by
    rw [Int.ceil_eq_iff]
    show ((1 : ℤ) : ℚ) - 1 < (30 : ℚ) * (6 / 5) / 55 ∧
      (30 : ℚ) * (6 / 5) / 55 ≤ ((1 : ℤ) : ℚ)
    norm_num
  unfold compute
  rw [hlk]
  simp only [hv, Bool.true_eq_false, not_true_eq_false, if_false, hceil]
  norm_num [scenarioRequest, scenarioResult, edgeMultiplier, jobTypeMarkup]

/-- C1: whenever `compute` succeeds, the total cost is exactly the sum
of the four components of the result, with no hidden terms. -/
theorem claim_C1_totalCost_eq_sum (req : EstimateRequest) (cat : CatalogSnapshot)
    (res : EstimateResult) (h : compute req cat = Except.ok res) :
    res.totalCost = res.materialCost + res.fixtureCost + res.backsplashCost +
      res.laborCost := by
  unfold compute at h
  by_cases hv : validRequest req = true
  · rw [if_neg (by simp [hv])] at h
    injection h with h
    rw [← h]
  · rw [if_pos (by simp [hv])] at h
    cases h

/-- Witness for C1 at the spec scenario. -/
theorem claim_C1_witness :
    scenarioResult.totalCost = scenarioResult.materialCost +
      scenarioResult.fixtureCost + scenarioResult.backsplashCost +
      scenarioResult.laborCost :=
  claim_C1_totalCost_eq_sum scenarioRequest scenarioCatalog scenarioResult
    scenario_compute

theorem lookup_unitsPerSlab_pos {cat : CatalogSnapshot} {k : Str}
    (hwf : CatalogWF cat) : 0 < (lookup cat k).1.unitsPerSlab := by
  unfold lookup
  cases hfind : cat.find? (fun e => e.key == normalizeKey k) with
  | none => norm_num [defaultEntry]
  | some e => exact (hwf e (List.mem_of_find?_eq_some hfind)).2

theorem compute_ok_slabCount {req : EstimateRequest} {cat : CatalogSnapshot}
    {res : EstimateResult} (h : compute req cat = Except.ok res) :
    res.slabCount =
        ⌈req.areaUnits * (6 / 5) / (lookup cat req.materialKey).1.unitsPerSlab⌉ ∧
      0 < req.areaUnits := by
  unfold compute at h
  by_cases hv : validRequest req = true
  · rw [if_neg (by simp [hv])] at h
    injection h with h
    constructor
    · rw [← h]
    · simp only [validRequest, Bool.and_eq_true, decide_eq_true_eq] at hv
      exact hv.1.1
  · rw [if_pos (by simp [hv])] at h
    cases h

/-- C6: for a well-formed catalog, every successful estimate has a slab
count of at least 1 (it is the ceiling of effective area over slab
area), and the slab count is monotonically non-decreasing in the
requested area with all other inputs held fixed. -/
theorem claim_C6_slabCount_pos_mono (cat : CatalogSnapshot) (hwf : CatalogWF cat)
    (req : EstimateRequest) (a' : ℚ) (res res' : EstimateResult)
    (h : compute req cat = Except.ok res)
    (h' : compute { req with areaUnits := a' } cat = Except.ok res')
    (hle : req.areaUnits ≤ a') :
    1 ≤ res.slabCount ∧ res.slabCount ≤ res'.slabCount := by
  obtain ⟨hs, hpos⟩ := compute_ok_slabCount h
  obtain ⟨hs', _⟩ := compute_ok_slabCount h'
  have hslab : (0 : ℚ) < (lookup cat req.materialKey).1.unitsPerSlab :=
    lookup_unitsPerSlab_pos hwf
  constructor
  · rw [hs]
    exact Int.one_le_ceil_iff.mpr
      (div_pos (mul_pos hpos (by norm_num)) hslab)
  · rw [hs, hs']
    exact Int.ceil_le_ceil
      ((div_le_div_iff_of_pos_right hslab).mpr
        (mul_le_mul_of_nonneg_right hle (by norm_num)))

/-- Witness for C6 at the spec scenario (same area on both sides). -/
theorem claim_C6_witness :
    1 ≤ scenarioResult.slabCount ∧
      scenarioResult.slabCount ≤ scenarioResult.slabCount :=
  claim_C6_slabCount_pos_mono scenarioCatalog
    (fun e he => by
      rcases List.mem_singleton.mp he with rfl
      exact ⟨by norm_num, by norm_num⟩)
    scenarioRequest 30 scenarioResult scenarioResult scenario_compute
    scenario_compute (by norm_num [scenarioRequest])

end Estimator

/-- C8: on every upload with a present file, a non-empty name and an
allowed extension, `upload_image` saves the file and inserts the
countertop document, but its success response is unreachable: building
the response raises `NameError` on the undefined name `false`, so the
handler returns the 500 error while the saved file and the inserted
document remain in place; no branch of the handler ever returns a
success response. -/
theorem claim_C8_upload_always_fails :
    (∀ (sf : Str → Str) (req : FlaskApp.UploadRequest) (st : FlaskApp.ServerState),
        req.hasFile = true → req.filename ≠ [] →
        FlaskApp.allowed_file req.filename = true →
        FlaskApp.upload_image sf req st =
          ({ savedFiles := st.savedFiles ++ [sf req.filename]
             collection := st.collection ++
               [FlaskApp.countertop_data (sf req.filename)] },
           FlaskApp.HttpResponse.err 500 (strOf "Failed to upload image"))) ∧
    (∀ (sf : Str → Str) (req : FlaskApp.UploadRequest) (st : FlaskApp.ServerState)
        (body : Str),
        (FlaskApp.upload_image sf req st).2 ≠ FlaskApp.HttpResponse.ok body) := by
  constructor
  · intro sf req st h1 h2 h3
    unfold FlaskApp.upload_image
    rw [if_neg (by simp [h1]), if_neg h2, if_neg (by simp [h3])]
    rfl
  · intro sf req st body
    unfold FlaskApp.upload_image
    split_ifs <;> simp [FlaskApp.buildSuccessResponse]

/-- Witness for C8: uploading "slab.png" to an empty server state. -/
theorem claim_C8_witness :
    FlaskApp.upload_image id { hasFile := true, filename := strOf "slab.png" }
        { savedFiles := [], collection := [] } =
      ({ savedFiles := [strOf "slab.png"]
         collection := [FlaskApp.countertop_data (strOf "slab.png")] },
       FlaskApp.HttpResponse.err 500 (strOf "Failed to upload image")) :=
  claim_C8_upload_always_fails.1 id _ _ rfl (by decide) (by decide)

end SurpriseGranite
